import Mathlib

/-!
Verification of the ranked-stats collection pipeline
(`collect_ranked_stats.py`) against its natural-language specification.

The pipeline operates on pandas DataFrames.  We embed a DataFrame as a list
of rows, each row an association list from column names to cell values
(`Row`), which makes the column-alignment behaviour of `pd.concat`
(missing columns filled with an explicit null marker) and the column-wise
operations (`drop`, `rename`, `filter`, `applymap`) explicit and provable.

Pandas behaviours embedded from their documented semantics:
  * `DataFrame.drop(columns=lst)` raises a KeyError when a listed label is
    absent, and returns a new frame (it is not in-place);
  * `pd.concat(axis=0)` outer-aligns columns, filling missing cells with
    NaN (our `Val.null`), keeping first-seen column order;
  * `DataFrame.filter(regex=pat)` keeps columns for which `re.search`
    finds the pattern; the source's patterns `.*challenge*`, `.*Ping*`,
    `.*riot*`, `.*nexus*`, `.*gameEnded*`, and `runeShard*` end in a
    gratuitous `*` (zero-or-more of the preceding character), so under
    `re.search` each is equivalent to containment of the stem "challeng",
    "Pin", "rio", "nexu", "gameEnde", "runeShar" respectively;
  * `pd.json_normalize` flattens nested dicts into dotted column names and
    leaves list values as single cells; selecting an absent column from a
    frame raises KeyError; and `pd.json_normalize` applied to a nonempty
    series whose records are lists (not dicts) — such as the
    `perks.styles` cells — raises AttributeError, because its record
    inspection calls `.values()` on each record before anything else, so
    it never returns for such input.
-/

deriving instance DecidableEq for Except

namespace RankedStats

/-- One rune selection inside a style branch, as the provider reports it. -/
structure Selection where
  perk : Int
  var1 : Int
  var2 : Int
  var3 : Int
deriving DecidableEq

/-- One style branch of the rune-selection tree: a description tag, a style
id, and the ordered selections. -/
structure StyleBranch where
  description : String
  style : Int
  selections : List Selection
deriving DecidableEq

/-- Cell value of a data frame: an integer, a string, the explicit null
marker (pandas NaN / None), or the nested list of style branches that the
flattened participant record keeps in its `perks.styles` column. -/
inductive Val where
  | int (n : Int)
  | str (s : String)
  | null
  | styles (sl : List StyleBranch)
deriving DecidableEq

/-- The stat-shard structure of a participant (`perks.statPerks`). -/
structure StatPerks where
  defense : Int
  flex : Int
  offense : Int
deriving DecidableEq

/-- The `perks` object of a participant: stat shards and style branches. -/
structure Perks where
  statPerks : StatPerks
  styles : List StyleBranch
deriving DecidableEq

/-- A raw participant record: its flat scalar fields plus the nested
`perks` structure. -/
structure Participant where
  fields : List (String × Val)
  perks : Perks
deriving DecidableEq

/-- A row of a data frame: an association list from column names to values. -/
abbrev Row := List (String × Val)

/-- A data frame: a list of rows. -/
abbrev Frame := List Row

/-- Errors the Python code can raise while manipulating frames. -/
inductive PyError where
  | keyError (key : String)
  | attributeError
deriving DecidableEq

/-- Column labels of a frame (pandas columns; rows of a frame built by the
pipeline all share them). -/
def frameCols : Frame → List String
  | [] => []
  | r :: _ => r.map Prod.fst

/-- Outer-join column union in first-seen order, as `pd.concat` computes it. -/
def unionCols (acc : List String) (cs : List String) : List String :=
  acc ++ cs.filter (fun c => !acc.contains c)

/-- Reindex a row to a column list, filling absent columns with the explicit
null marker — the alignment `pd.concat` applies. -/
def alignRow (cols : List String) (r : Row) : Row :=
  cols.map (fun c => (c, (List.lookup c r).getD Val.null))

/-- One step of the accumulation loop in `collect_data`:
`data = pd.concat([data, player_data], ignore_index=True)`. -/
def concatRow (data : Frame) (r : Row) : Frame :=
  let cols := unionCols (frameCols data) (r.map Prod.fst)
  (data ++ [r]).map (alignRow cols)

/-- Flattening of one participant by `pd.json_normalize`: scalar fields keep
their names, the nested `statPerks` dict becomes three dotted columns, and
the `styles` list stays a single list-valued cell. -/
def flattenParticipant (p : Participant) : Row :=
  p.fields ++
    [("perks.statPerks.defense", Val.int p.perks.statPerks.defense),
     ("perks.statPerks.flex", Val.int p.perks.statPerks.flex),
     ("perks.statPerks.offense", Val.int p.perks.statPerks.offense),
     ("perks.styles", Val.styles p.perks.styles)]

/-- The accumulation loop of `collect_data`: starting from the empty frame,
concatenate each participant's flattened row. -/
def assembleRaw (participants : List Participant) : Frame :=
  participants.foldl (fun d p => concatRow d (flattenParticipant p)) []

/-- The function `get_runes` of the source. Its first statement is
`perks = pd.json_normalize(data['perks.styles'])`: the column selection
raises KeyError when the frame has no `perks.styles` column (as on the
empty frame `collect_data` starts from); otherwise the series is nonempty
and every cell is a list of style dicts, and `pd.json_normalize` raises
AttributeError while inspecting the first record (a list has no
`.values()`). The function therefore fails on every input, and the
positional extraction and concatenation of its remaining statements are
unreachable. -/
def get_runes (data : Frame) : Except PyError Frame :=
  if (frameCols data).contains "perks.styles" then
    Except.error PyError.attributeError
  else Except.error (PyError.keyError "perks.styles")

/-- The function `collect_data` of the source, with the per-match fetching
abstracted into the list of already-extracted participants: accumulate the
flattened rows, then run `get_runes` on the result. -/
def collect_data (participants : List Participant) : Except PyError Frame :=
  get_runes (assembleRaw participants)

/-- Renaming table of `rename_shard_columns`. -/
def renameShardCol (c : String) : String :=
  if c = "perks.statPerks.defense" then "runeShardDefense"
  else if c = "perks.statPerks.flex" then "runeShardFlex"
  else if c = "perks.statPerks.offense" then "runeShardOffense"
  else c

/-- The function `rename_shard_columns` of the source: `DataFrame.rename`
over the three stat-shard columns. -/
def rename_shard_columns (data : Frame) : Frame :=
  data.map (fun r => r.map (fun pr => (renameShardCol pr.1, pr.2)))

/-- The deny-list `remove_unnecessary_info` passes to `DataFrame.drop`. -/
def deny_list : List String :=
  ["perks.styles", "unrealKills", "totalUnitsHealed", "summonerId",
   "summonerLevel", "summonerName", "role", "puuid", "profileIcon",
   "largestCriticalStrike", "lane", "itemsPurchased", "individualPosition",
   "goldSpent", "eligibleForProgression", "championTransform", "championId"]

/-- Embedding of `DataFrame.drop(columns=cols)`: a KeyError when a listed
column is absent from the frame, otherwise a new frame without the listed
columns. -/
def dropColumns (data : Frame) (cols : List String) : Except PyError Frame :=
  match cols.find? (fun c => !(frameCols data).contains c) with
  | some missing => .error (PyError.keyError missing)
  | none => .ok (data.map (fun r => r.filter (fun pr => !cols.contains pr.1)))

/-- Test that `p` is a prefix of the character list. -/
def isPrefixChars : List Char → List Char → Bool
  | [], _ => true
  | _ :: _, [] => false
  | p :: ps, c :: cs => p == c && isPrefixChars ps cs

/-- Test that `pat` occurs somewhere inside the character list. -/
def containsChars (pat : List Char) : List Char → Bool
  | [] => isPrefixChars pat []
  | c :: cs => isPrefixChars pat (c :: cs) || containsChars pat cs

/-- Containment of `pat` in `s`, the `re.search` semantics of the source's
star-suffixed patterns reduced to their stems (see the header comment). -/
def containsStr (s pat : String) : Bool := containsChars pat.data s.data

/-- Stems of the five removal patterns of `remove_unnecessary_info`:
`.*challenge*`, `.*Ping*`, `.*riot*`, `.*nexus*`, `.*gameEnded*` under
`re.search` each reduce to containment of these. -/
def removal_stems : List String := ["challeng", "Pin", "rio", "nexu", "gameEnde"]

/-- The function `filter_data` of the source: a new frame without the
columns whose name matches the pattern. -/
def filter_data (data : Frame) (stem : String) : Frame :=
  data.map (fun r => r.filter (fun pr => !containsStr pr.1 stem))

/-- The function `remove_unnecessary_info` of the source. The loop body
calls `filter_data(data, regex)` without binding the result, and
`DataFrame.drop` is not in-place, so — exactly as in the source — the
pattern-based removal has no effect on the returned frame. -/
def remove_unnecessary_info (data : Frame) : Except PyError Frame := do
  let dropped ← dropColumns data deny_list
  let _discarded := removal_stems.map (fun stem => filter_data dropped stem)
  pure dropped

/-- The fixed local translation table of `decode_shards`. -/
def shardTranslations (n : Int) : Option String :=
  if n = 5001 then some "Health"
  else if n = 5002 then some "Armor"
  else if n = 5003 then some "Magic Resist"
  else if n = 5005 then some "Attack Speed"
  else if n = 5007 then some "Ability Haste"
  else if n = 5008 then some "Adaptive Force"
  else none

/-- Cell translation of `decode_shards`: `translations.get(shard)` yields
the table entry for a known integer id and None (an explicit null) for
everything else. -/
def decodeShardVal (v : Val) : Val :=
  match v with
  | Val.int n =>
      match shardTranslations n with
      | some s => Val.str s
      | none => Val.null
  | _ => Val.null

/-- The function `decode_shards` of the source: every column matched by the
pattern `runeShard*` (equivalently, whose name contains "runeShar") has all
its cells translated through the fixed table; other columns are untouched. -/
def decode_shards (data : Frame) : Frame :=
  data.map (fun r => r.map (fun pr =>
    if containsStr pr.1 "runeShar" then (pr.1, decodeShardVal pr.2) else pr))

/-- The set of valid regions of `get_region`. -/
def valid_regions : List String :=
  ["BR1", "EUN1", "EUW1", "JP1", "KR", "LA1", "LA2", "NA1",
   "OC1", "PH2", "RU", "SG2", "TH2", "TR1", "TW2", "VN2"]

/-- Python `str.upper`, embedded character-wise (the region codes are
ASCII, where `Char.toUpper` agrees with Python). -/
def pyUpper (s : String) : String := ⟨s.data.map Char.toUpper⟩

/-- The whitespace characters Python `str.strip` removes by default. -/
def pyIsSpace (c : Char) : Bool :=
  c = ' ' || c = '\t' || c = '\n' || c = '\r' || c = '\x0b' || c = '\x0c'

/-- Python `str.strip`: drop leading and trailing whitespace. -/
def pyStrip (s : String) : String :=
  ⟨((s.data.dropWhile pyIsSpace).reverse.dropWhile pyIsSpace).reverse⟩

/-- Outcome of `get_region`: either the (original, unmodified) region string
is returned, or the process prints the valid set and exits with a code. -/
inductive RegionResult where
  | accepted (region : String)
  | exited (code : Nat) (printedRegions : List String)
deriving DecidableEq

/-- The function `get_region` of the source: `region.upper().strip()` is
tested for membership in the valid set; on success the original string is
returned, otherwise the valid set is printed and the process exits with
status 2. -/
def get_region (region : String) : RegionResult :=
  if valid_regions.contains (pyStrip (pyUpper region)) then RegionResult.accepted region
  else RegionResult.exited 2 valid_regions

/-- An API error as `riotwatcher` raises it, carrying the HTTP status. -/
structure ApiError where
  status_code : Nat
deriving DecidableEq

/-- A summoner record as the fetcher returns it. -/
structure Summoner where
  name : String
  puuid : String
deriving DecidableEq

/-- What `watcher.summoner.by_name` does: return a summoner or raise an
`ApiError`. -/
inductive FetchOutcome where
  | success (s : Summoner)
  | apiError (e : ApiError)
deriving DecidableEq

/-- Outcome of `get_summoner`: the function returns a record, exits the
process, raises an UnboundLocalError at its `return` statement, or lets an
exception propagate. -/
inductive SummonerResult where
  | returned (s : Summoner)
  | exited (code : Nat)
  | unboundLocalError
  | raised (e : ApiError)
deriving DecidableEq

/-- The function `get_summoner` of the source, with the `try/except` control
flow made explicit: the local variable `summoner` is assigned only when the
fetch succeeds; every `ApiError` is caught, and only the 404 branch exits;
any caught non-404 error falls through to `return summoner` with the local
never assigned. -/
def get_summoner (fetch : FetchOutcome) : SummonerResult :=
  let summonerLocal : Option Summoner :=
    match fetch with
    | FetchOutcome.success s => some s
    | FetchOutcome.apiError _ => none
  let handler : Option SummonerResult :=
    match fetch with
    | FetchOutcome.success _ => none
    | FetchOutcome.apiError e =>
        if e.status_code = 404 then some (SummonerResult.exited 2) else none
  match handler with
  | some r => r
  | none =>
      match summonerLocal with
      | some s => SummonerResult.returned s
      | none => SummonerResult.unboundLocalError

/-! Claim C7: region validation. -/

/-- Claim C7: `get_region` accepts an input exactly when the input,
uppercased and stripped of surrounding whitespace, belongs to the fixed
16-element region set; an accepted input is returned as given, a rejected
one makes the process print the valid set and exit with the non-zero status
2 (so "na1" is accepted as equivalent to "NA1" and "XX9" is rejected). -/
theorem claim_C7_region_validation : ∀ region : String,
    ((∃ r, get_region region = RegionResult.accepted r) ↔
      valid_regions.contains (pyStrip (pyUpper region)) = true) ∧
    (get_region region = RegionResult.accepted region ∨
      get_region region = RegionResult.exited 2 valid_regions) ∧
    get_region "na1" = RegionResult.accepted "na1" ∧
    get_region "XX9" = RegionResult.exited 2 valid_regions := by
  intro region
  refine ⟨⟨?_, ?_⟩, ?_, by decide, by decide⟩
  · intro hex
    by_cases h : valid_regions.contains (pyStrip (pyUpper region)) = true
    · exact h
    · exfalso
      obtain ⟨r, hr⟩ := hex
      replace h : pyStrip (pyUpper region) ∉ valid_regions := by simpa using h
      simp [get_region, h] at hr
  · intro h
    exact ⟨region, by simp only [get_region, h, if_true]⟩
  · by_cases h : valid_regions.contains (pyStrip (pyUpper region)) = true
    · left
      simp only [get_region, h, if_true]
    · right
      replace h : pyStrip (pyUpper region) ∉ valid_regions := by simpa using h
      simp [get_region, h]

/-! Claim C9: behaviour of `get_summoner` on a non-404 API error. -/

/-- Claim C9: when the fetch raises an API error whose status is not 404,
`get_summoner` neither returns a record, nor exits through the
player-not-found path, nor propagates the original error: it reaches its
`return` statement with the local `summoner` unassigned and fails with an
UnboundLocalError. -/
theorem claim_C9_non404_unbound_local (e : ApiError) (h : e.status_code ≠ 404) :
    get_summoner (FetchOutcome.apiError e) = SummonerResult.unboundLocalError ∧
    (∀ s, get_summoner (FetchOutcome.apiError e) ≠ SummonerResult.returned s) ∧
    get_summoner (FetchOutcome.apiError e) ≠ SummonerResult.exited 2 ∧
    get_summoner (FetchOutcome.apiError e) ≠ SummonerResult.raised e := by
  have hmain : get_summoner (FetchOutcome.apiError e) =
      SummonerResult.unboundLocalError := by
    simp only [get_summoner, h, if_false]
  exact ⟨hmain, fun s => by simp [hmain], by simp [hmain], by simp [hmain]⟩

/-- Witness for claim C9 at the concrete rate-limit status 429. -/
theorem claim_C9_witness :
    get_summoner (FetchOutcome.apiError ⟨429⟩) = SummonerResult.unboundLocalError ∧
    (∀ s, get_summoner (FetchOutcome.apiError ⟨429⟩) ≠ SummonerResult.returned s) ∧
    get_summoner (FetchOutcome.apiError ⟨429⟩) ≠ SummonerResult.exited 2 ∧
    get_summoner (FetchOutcome.apiError ⟨429⟩) ≠ SummonerResult.raised ⟨429⟩ :=
  claim_C9_non404_unbound_local ⟨429⟩ (by decide)

/-! Claim C10: the pipeline on an empty match list. -/

/-- Claim C10: for an empty list of match references, `collect_data` builds
an empty frame and `get_runes` then fails with a missing-column KeyError on
`perks.styles`; assembling a batch from zero matches always fails instead
of producing an empty batch. -/
theorem claim_C10_empty_batch_fails :
    assembleRaw [] = [] ∧
    collect_data [] = Except.error (PyError.keyError "perks.styles") :=
  ⟨rfl, rfl⟩

/-! Helper lemmas about `dropColumns` and `remove_unnecessary_info`. -/

/-- Success case of `dropColumns`. -/
theorem dropColumns_ok (data : Frame) (cols : List String)
    (h : cols.find? (fun c => !(frameCols data).contains c) = none) :
    dropColumns data cols =
      Except.ok (data.map (fun r => r.filter (fun pr => !cols.contains pr.1))) := by
  unfold dropColumns
  rw [h]

/-- Failure case of `dropColumns`. -/
theorem dropColumns_error (data : Frame) (cols : List String) (m : String)
    (h : cols.find? (fun c => !(frameCols data).contains c) = some m) :
    dropColumns data cols = Except.error (PyError.keyError m) := by
  unfold dropColumns
  rw [h]

/-- Success case of `remove_unnecessary_info`: every deny-listed column is
present, and the result drops exactly the deny-listed columns (the
discarded `filter_data` calls change nothing). -/
theorem remove_unnecessary_info_ok (data : Frame)
    (h : deny_list.find? (fun c => !(frameCols data).contains c) = none) :
    remove_unnecessary_info data =
      Except.ok (data.map (fun r => r.filter (fun pr => !deny_list.contains pr.1))) := by
  unfold remove_unnecessary_info
  rw [dropColumns_ok data deny_list h]
  rfl

/-- Failure case of `remove_unnecessary_info`: a deny-listed column is
absent. -/
theorem remove_unnecessary_info_error (data : Frame) (m : String)
    (h : deny_list.find? (fun c => !(frameCols data).contains c) = some m) :
    remove_unnecessary_info data = Except.error (PyError.keyError m) := by
  unfold remove_unnecessary_info
  rw [dropColumns_error data deny_list m h]
  rfl

/-- Inversion of a successful `remove_unnecessary_info`. -/
theorem remove_unnecessary_info_ok_iff (data out : Frame) :
    remove_unnecessary_info data = Except.ok out ↔
      (deny_list.find? (fun c => !(frameCols data).contains c) = none ∧
        out = data.map (fun r => r.filter (fun pr => !deny_list.contains pr.1))) := by
  constructor
  · intro h
    cases hf : deny_list.find? (fun c => !(frameCols data).contains c) with
    | none =>
        rw [remove_unnecessary_info_ok data hf] at h
        exact ⟨rfl, (Except.ok.inj h).symm⟩
    | some m =>
        rw [remove_unnecessary_info_error data m hf] at h
        simp at h
  · rintro ⟨hf, rfl⟩
    exact remove_unnecessary_info_ok data hf

/-! Claim C2: totality of the field normalizer. -/

/-- Claim C2 (amended): `remove_unnecessary_info` is not total — it
succeeds exactly when every deny-listed column is present in the frame
(so an input missing a deny-listed column such as `unrealKills` makes it
fail with a KeyError); when it succeeds, the output is the input with
precisely the deny-listed columns removed, so every other column — in
particular every column not on the deny-list and not matching a removal
pattern — passes through unchanged. -/
theorem claim_C2_normalize_partial_totality : ∀ data : Frame,
    ((∃ out, remove_unnecessary_info data = Except.ok out) ↔
      ∀ c ∈ deny_list, c ∈ frameCols data) ∧
    ∀ out, remove_unnecessary_info data = Except.ok out →
      out = data.map (fun r => r.filter (fun pr => !deny_list.contains pr.1)) := by
  intro data
  constructor
  · constructor
    · rintro ⟨out, hout⟩ c hc
      obtain ⟨hf, -⟩ := (remove_unnecessary_info_ok_iff data out).1 hout
      have hnc := List.find?_eq_none.1 hf c hc
      simpa using hnc
    · intro hall
      refine ⟨_, remove_unnecessary_info_ok data ?_⟩
      rw [List.find?_eq_none]
      intro c hc
      simpa using hall c hc
  · intro out hout
    exact ((remove_unnecessary_info_ok_iff data out).1 hout).2

/-- Counterexample to claim C2 as stated: a well-formed single-row frame
from which the deny-listed columns are absent makes the normalizer fail
(with a KeyError on the first deny-listed column) instead of returning a
result. -/
theorem claim_C2_counterexample :
    remove_unnecessary_info [[("kills", Val.int 5)]] =
      Except.error (PyError.keyError "perks.styles") := by decide

/-! Claim C3: idempotence of the field normalizer. -/

/-- Claim C3 (amended): the normalizer is not idempotent — whenever
`remove_unnecessary_info` succeeds, its output no longer carries the
deny-listed columns, so applying it again always fails with a KeyError on
`perks.styles` rather than returning the same row set. -/
theorem claim_C3_second_normalize_fails : ∀ data out : Frame,
    remove_unnecessary_info data = Except.ok out →
    remove_unnecessary_info out = Except.error (PyError.keyError "perks.styles") := by
  intro data out hout
  obtain ⟨hf, hout_eq⟩ := (remove_unnecessary_info_ok_iff data out).1 hout
  have hmem : "perks.styles" ∈ frameCols data := by
    have hnc := List.find?_eq_none.1 hf "perks.styles" (by simp [deny_list])
    simpa using hnc
  cases data with
  | nil => simp [frameCols] at hmem
  | cons r rs =>
    subst hout_eq
    have hnot : "perks.styles" ∉
        (r.filter (fun pr => !deny_list.contains pr.1)).map Prod.fst := by
      intro hin
      obtain ⟨pr, hpr, hfst⟩ := List.mem_map.1 hin
      obtain ⟨-, hcond⟩ := List.mem_filter.1 hpr
      rw [hfst] at hcond
      simp [deny_list] at hcond
    apply remove_unnecessary_info_error
    have hshape : deny_list = "perks.styles" :: deny_list.tail := rfl
    rw [hshape]
    apply List.find?_cons_of_pos
    simp only [List.map_cons, frameCols, Bool.not_eq_eq_eq_not, Bool.not_true]
    simpa using hnot

/-- Witness for claim C3 at a concrete frame carrying all deny-listed
columns: the first application succeeds, the second fails. -/
theorem claim_C3_witness :
    remove_unnecessary_info [deny_list.map (fun c => (c, Val.int 0)) ++ [("kills", Val.int 3)]] =
      Except.ok [[("kills", Val.int 3)]] ∧
    remove_unnecessary_info [[("kills", Val.int 3)]] =
      Except.error (PyError.keyError "perks.styles") :=
  ⟨by decide,
    claim_C3_second_normalize_fails
      [deny_list.map (fun c => (c, Val.int 0)) ++ [("kills", Val.int 3)]]
      [[("kills", Val.int 3)]] (by decide)⟩

/-- Counterexample to claim C3 as stated: at a concrete input the first
application of the normalizer succeeds, but applying it to its own output
does not yield that output again (it fails). -/
theorem claim_C3_counterexample :
    remove_unnecessary_info [deny_list.map (fun c => (c, Val.int 1)) ++ [("assists", Val.int 7)]] =
      Except.ok [[("assists", Val.int 7)]] ∧
    remove_unnecessary_info [[("assists", Val.int 7)]] ≠
      Except.ok [[("assists", Val.int 7)]] := by decide

/-! Claim C1: the pattern-based column removal. -/

/-- Claim C1 concerns a defect of the source: `remove_unnecessary_info`
iterates `filter_data(data, regex)` but discards the returned frame (and
`DataFrame.drop` is not in-place), so the pattern-matching columns are NOT
removed. At a concrete frame carrying every deny-listed column plus a
column `challenges.kda` that matches the challenge-tracking pattern, the
normalizer succeeds and the matching column survives in its output, even
though `filter_data` — whose result the source throws away — would have
removed it. -/
theorem claim_C1_pattern_removal_is_noop :
    remove_unnecessary_info
        [deny_list.map (fun c => (c, Val.int 0)) ++
          [("kills", Val.int 3), ("challenges.kda", Val.int 4)]] =
      Except.ok [[("kills", Val.int 3), ("challenges.kda", Val.int 4)]] ∧
    containsStr "challenges.kda" "challeng" = true ∧
    "challenges.kda" ∈ frameCols [[("kills", Val.int 3), ("challenges.kda", Val.int 4)]] ∧
    "challenges.kda" ∉
      frameCols (filter_data [[("kills", Val.int 3), ("challenges.kda", Val.int 4)]] "challeng") := by
  decide

/-! Claim C6: shard decoding. -/

/-- The three renamed shard columns. -/
def shardColumnNames : List String :=
  ["runeShardDefense", "runeShardFlex", "runeShardOffense"]

/-- Row used to exercise `decode_shards` on the three shard columns. -/
def shardSampleRow : Row :=
  [("runeShardDefense", Val.int 5001), ("runeShardFlex", Val.int 9999),
   ("runeShardOffense", Val.int 5005), ("win", Val.str "true")]

/-- Claim C6 (amended): `decode_shards` translates, through exactly the
fixed table (5001 Health, 5002 Armor, 5003 Magic Resist, 5005 Attack
Speed, 5007 Ability Haste, 5008 Adaptive Force; any other id becomes an
explicit null), every value of every column whose name matches the shard
pattern `runeShard*` — that is, contains "runeShar". The three shard
columns all match, so their values are decoded; a column whose name does
not match is unchanged. (The claim's stronger clause that no column
outside the three shard columns changes fails: any column whose name
contains "runeShar" is also decoded, see the counterexample.) -/
theorem claim_C6_shard_decoding (data : Frame) (r : Row) (hr : r ∈ data) :
    (decodeShardVal (Val.int 5001) = Val.str "Health" ∧
     decodeShardVal (Val.int 5002) = Val.str "Armor" ∧
     decodeShardVal (Val.int 5003) = Val.str "Magic Resist" ∧
     decodeShardVal (Val.int 5005) = Val.str "Attack Speed" ∧
     decodeShardVal (Val.int 5007) = Val.str "Ability Haste" ∧
     decodeShardVal (Val.int 5008) = Val.str "Adaptive Force") ∧
    (∀ n : Int, n ∉ ([5001, 5002, 5003, 5005, 5007, 5008] : List Int) →
      decodeShardVal (Val.int n) = Val.null) ∧
    (∀ c ∈ shardColumnNames, containsStr c "runeShar" = true) ∧
    ∃ r2, r2 ∈ decode_shards data ∧
      (∀ pr ∈ r, pr.1 ∈ shardColumnNames → (pr.1, decodeShardVal pr.2) ∈ r2) ∧
      (∀ pr ∈ r, containsStr pr.1 "runeShar" = false → pr ∈ r2) := by
  refine ⟨by decide, ?_, by decide, ?_⟩
  · intro n hn
    simp only [List.mem_cons, List.not_mem_nil, or_false, not_or] at hn
    obtain ⟨h1, h2, h3, h4, h5, h6⟩ := hn
    simp [decodeShardVal, shardTranslations, h1, h2, h3, h4, h5, h6]
  · refine ⟨r.map (fun pr =>
      if containsStr pr.1 "runeShar" then (pr.1, decodeShardVal pr.2) else pr),
      List.mem_map_of_mem _ hr, ?_, ?_⟩
    · intro pr hpr hshard
      have hcs : containsStr pr.1 "runeShar" = true := by
        simp only [shardColumnNames, List.mem_cons, List.not_mem_nil, or_false] at hshard
        rcases hshard with h | h | h <;> rw [h] <;> decide
      refine List.mem_map.2 ⟨pr, hpr, ?_⟩
      simp [hcs]
    · intro pr hpr hno
      refine List.mem_map.2 ⟨pr, hpr, ?_⟩
      simp [hno]

/-- Witness for claim C6 at a concrete frame: the three shard columns carry
5001, 9999 and 5005, and the decoded row realises Health, null and Attack
Speed while the unrelated `win` column is untouched. -/
theorem claim_C6_witness :
    (decodeShardVal (Val.int 5001) = Val.str "Health" ∧
     decodeShardVal (Val.int 5002) = Val.str "Armor" ∧
     decodeShardVal (Val.int 5003) = Val.str "Magic Resist" ∧
     decodeShardVal (Val.int 5005) = Val.str "Attack Speed" ∧
     decodeShardVal (Val.int 5007) = Val.str "Ability Haste" ∧
     decodeShardVal (Val.int 5008) = Val.str "Adaptive Force") ∧
    (∀ n : Int, n ∉ ([5001, 5002, 5003, 5005, 5007, 5008] : List Int) →
      decodeShardVal (Val.int n) = Val.null) ∧
    (∀ c ∈ shardColumnNames, containsStr c "runeShar" = true) ∧
    ∃ r2, r2 ∈ decode_shards [shardSampleRow] ∧
      (∀ pr ∈ shardSampleRow, pr.1 ∈ shardColumnNames →
        (pr.1, decodeShardVal pr.2) ∈ r2) ∧
      (∀ pr ∈ shardSampleRow, containsStr pr.1 "runeShar" = false → pr ∈ r2) :=
  claim_C6_shard_decoding [shardSampleRow] shardSampleRow (by decide)

/-- Counterexample to claim C6 as stated: a column named `runeSharpness`
is not one of the three shard columns, yet `decode_shards` changes its
value (the pattern `runeShard*` makes the final `d` optional, so any name
containing "runeShar" is matched). -/
theorem claim_C6_counterexample :
    decode_shards [[("runeSharpness", Val.int 5001)]] =
      [[("runeSharpness", Val.str "Health")]] ∧
    "runeSharpness" ∉ shardColumnNames := by decide

/-! Helper lemmas about row alignment and lookup. -/

end RankedStats
